import Mathlib

/-!
Verification development for the conversational topic-detection engine and the
pending-content approval workflow:

* the Pending Content Store (src/services/pending-store.ts): two-tier
  cache/durable-store CRUD with a 24h TTL;
* the approval handlers (handleEmailApproval / handleCircleApproval and the
  modal-submission update path);
* the topic watcher (src/workflows/topic-watcher.ts): heuristic pre-filter,
  topic-request correlation, duplicate suppression;
* the classifier response handling (detectTopicInMessage) and the call-history
  audit log (upsertCallHistory).

External collaborators (PostgreSQL, Slack, ActiveCampaign, Circle, the
semantic classifier, Zoom) are modelled as explicit parameters and oracles.
Timestamps are Nat milliseconds since the epoch, mirroring Date.getTime().
-/

namespace AutoCalls

/- ### JavaScript string primitives used by the embedded code -/

/-- Prefix test on character lists (an anchored RegExp alternative). -/
def listIsPre : List Char → List Char → Bool
  | [], _ => true
  | _ :: _, [] => false
  | a :: as, b :: bs => a == b && listIsPre as bs

/-- Substring occurrence test, i.e. JavaScript String.prototype.includes. -/
def listHasSub (needle : List Char) : List Char → Bool
  | [] => needle.isEmpty
  | c :: rest => listIsPre needle (c :: rest) || listHasSub needle rest

/-- `strContains s t` : JavaScript `s.includes(t)`. -/
def strContains (s t : String) : Bool :=
  listHasSub t.toList s.toList

/-- JavaScript `s.toLowerCase()`, character-wise over the code points. -/
def strToLower (s : String) : String :=
  String.mk (s.toList.map Char.toLower)

/-- JavaScript `s.trim()`: strip leading and trailing whitespace. -/
def strTrim (s : String) : String :=
  String.mk
    (((s.toList.dropWhile Char.isWhitespace).reverse.dropWhile Char.isWhitespace).reverse)

/-- JavaScript `s.split("\x0a")` on the newline character, over code points
(the empty string yields one empty line, as in JS). -/
def splitOnNewline : List Char → List (List Char)
  | [] => [[]]
  | c :: cs =>
      if c == '\n' then [] :: splitOnNewline cs
      else
        match splitOnNewline cs with
        | h :: t => (c :: h) :: t
        | [] => [[c]]

/- ### Data model of the Pending Content Store (src/services/pending-store.ts) -/

inductive MessageType
  | reminder
  | recap
deriving DecidableEq, Repr

inductive MessageChannel
  | whatsapp
  | email
  | circle
deriving DecidableEq, Repr

inductive CallType
  | weekly
  | monthly
deriving DecidableEq, Repr

inductive ReminderTiming
  | dayBefore
  | dayOf
deriving DecidableEq, Repr

/-- PendingMessage (pending-store.ts, lines 9-21). The open metadata bag
Record<string, unknown> is modelled as a string-keyed association list. -/
structure PendingMessage where
  id : String
  type : MessageType
  channel : MessageChannel
  callType : CallType
  timing : Option ReminderTiming
  message : String
  metadata : List (String × String)
  slackMessageTs : String
  slackChannel : String
  createdAt : Nat
  expiresAt : Nat
deriving DecidableEq, Repr

/-- CreatePendingInput (pending-store.ts, lines 23-32). -/
structure CreatePendingInput where
  type : MessageType
  channel : MessageChannel
  callType : CallType
  timing : Option ReminderTiming
  message : String
  metadata : Option (List (String × String))
  slackMessageTs : String
  slackChannel : String
deriving DecidableEq, Repr

/-- `const EXPIRY_MS = 24 * 60 * 60 * 1000`. -/
def EXPIRY_MS : Nat := 24 * 60 * 60 * 1000

/- A JavaScript `Map<string, V>` is modelled as an association list: `set`
shadows by consing after erasing the key, `delete` erases the key, `get` looks
the key up. -/

/-- The entries of a string-keyed map. -/
abbrev StrMap (α : Type) := List (String × α)

def mapGet {α : Type} (m : StrMap α) (k : String) : Option α :=
  List.lookup k m

def mapSet {α : Type} (m : StrMap α) (k : String) (v : α) : StrMap α :=
  (k, v) :: m.filter (fun p => p.1 != k)

def mapDelete {α : Type} (m : StrMap α) (k : String) : StrMap α :=
  m.filter (fun p => p.1 != k)

def mapHas {α : Type} (m : StrMap α) (k : String) : Bool :=
  (mapGet m k).isSome

/-- The in-memory `pendingCache` tier. -/
abbrev Cache := StrMap PendingMessage

/-- The durable `pending_messages` table, keyed by id. -/
abbrev Durable := StrMap PendingMessage

/-- The pending object built by `storePending`: `expiresAt = now + EXPIRY_MS`,
`metadata = input.metadata || {}`. The id comes from `generateId()`
(`Date.now()` plus randomness), modelled as a parameter. -/
def mkPending (input : CreatePendingInput) (id : String) (now : Nat) : PendingMessage :=
  { id := id
    type := input.type
    channel := input.channel
    callType := input.callType
    timing := input.timing
    message := input.message
    metadata := input.metadata.getD []
    slackMessageTs := input.slackMessageTs
    slackChannel := input.slackChannel
    createdAt := now
    expiresAt := now + EXPIRY_MS }

/-- `storePending` (pending-store.ts, lines 54-100): the cache write
`pendingCache.set(id, pending)` is synchronous and unconditional; the database
INSERT is issued afterwards, fire-and-forget, and only when
`isDatabaseConfigured()`; its failure (`dbWriteOk = false`) is caught and
logged, leaving the durable tier unchanged. -/
def storePending (cache : Cache) (durable : Durable) (dbConfigured dbWriteOk : Bool)
    (input : CreatePendingInput) (id : String) (now : Nat) :
    Cache × Durable × String :=
  let pending := mkPending input id now
  let cache1 := mapSet cache id pending
  let durable1 := if dbConfigured && dbWriteOk then mapSet durable id pending else durable
  (cache1, durable1, id)

/-- `getPendingAsync` (pending-store.ts, lines 105-145): returns null when no
database is configured; otherwise runs
`SELECT * FROM pending_messages WHERE id = $1 AND expires_at > NOW()`. -/
def getPendingAsync (durable : Durable) (dbConfigured : Bool) (id : String) (now : Nat) :
    Option PendingMessage :=
  if dbConfigured then
    match mapGet durable id with
    | some row => if now < row.expiresAt then some row else none
    | none => none
  else
    none

/-- `getPending` (pending-store.ts, lines 150-169), the synchronous read: a
fresh cache hit is returned; an expired cache hit is deleted and null
returned; a cache miss returns null immediately — the
`getPendingAsync(id).then(...)` repopulation it fires is asynchronous and has
not run when this call returns, so the cache is returned unchanged here. -/
def getPending (cache : Cache) (id : String) (now : Nat) :
    Option PendingMessage × Cache :=
  match mapGet cache id with
  | some cached =>
      if now > cached.expiresAt then (none, mapDelete cache id)
      else (some cached, cache)
  | none => (none, cache)

/-- `getPendingWithFallback` (pending-store.ts, lines 174-191): cache first; a
fresh hit is returned; an expired hit is deleted and the database consulted
(without repopulating); a miss falls back to the database and repopulates the
cache when a row is found. -/
def getPendingWithFallback (cache : Cache) (durable : Durable) (dbConfigured : Bool)
    (id : String) (now : Nat) : Option PendingMessage × Cache :=
  match mapGet cache id with
  | some cached =>
      if now > cached.expiresAt then
        (getPendingAsync durable dbConfigured id now, mapDelete cache id)
      else
        (some cached, cache)
  | none =>
      match getPendingAsync durable dbConfigured id now with
      | some pending => (some pending, mapSet cache id pending)
      | none => (none, cache)

/-- The row effect of
`UPDATE pending_messages SET message = $1 WHERE id = $2 AND expires_at > NOW()`. -/
def dbUpdateMessageRows (durable : Durable) (id newMessage : String) (now : Nat) : Durable :=
  durable.map (fun p =>
    if p.1 == id && now < p.2.expiresAt then (p.1, { p.2 with message := newMessage }) else p)

/-- `updatePendingMessage` (pending-store.ts, lines 196-221): mutates the
cached object when present; attempts the database UPDATE (when configured)
with failures caught and logged (`dbUpdateOk = false` leaves the durable tier
unchanged); returns true exactly when the id was cached at entry. -/
def updatePendingMessage (cache : Cache) (durable : Durable)
    (dbConfigured dbUpdateOk : Bool) (id newMessage : String) (now : Nat) :
    Bool × Cache × Durable :=
  let cached := mapGet cache id
  let cache1 :=
    match cached with
    | some p => mapSet cache id { p with message := newMessage }
    | none => cache
  let durable1 :=
    if dbConfigured && dbUpdateOk then dbUpdateMessageRows durable id newMessage now
    else durable
  (cached.isSome, cache1, durable1)

/-- `deletePending` (pending-store.ts, lines 255-277): records whether the
cache held the id, deletes it from the cache, attempts the database DELETE
(failures caught), and returns whether the id had existed in the cache. -/
def deletePending (cache : Cache) (durable : Durable) (dbConfigured dbDeleteOk : Bool)
    (id : String) : Bool × Cache × Durable :=
  let existed := mapHas cache id
  let cache1 := mapDelete cache id
  let durable1 := if dbConfigured && dbDeleteOk then mapDelete durable id else durable
  (existed, cache1, durable1)

/- ### Map lemmas -/

theorem mapGet_mapSet_self {α : Type} (m : StrMap α) (k : String) (v : α) :
    mapGet (mapSet m k v) k = some v := by
  simp [mapGet, mapSet, List.lookup]

theorem mapGet_filter_ne {α : Type} (m : StrMap α) (k : String) :
    mapGet (m.filter (fun p => p.1 != k)) k = none := by
  induction m with
  | nil => rfl
  | cons p rest ih =>
      by_cases h : p.1 = k
      · simpa [List.filter, h] using ih
      · have hb : (p.1 != k) = true := by simp [h]
        have hk : (k == p.1) = false := by
          simp
          exact fun hkk => (h hkk.symm).elim
        have := ih
        simp only [mapGet, List.filter, hb, List.lookup, hk] at this ⊢
        exact this

theorem mapGet_mapDelete_self {α : Type} (m : StrMap α) (k : String) :
    mapGet (mapDelete m k) k = none :=
  mapGet_filter_ne m k

/- ### Approval handlers (approval handler module, handleEmailApproval lines
15-75, handleCircleApproval lines 80-127) -/

/-- The state an approval handler touches: both store tiers plus a counter of
external send calls performed (ActiveCampaign sendCampaign / Circle
createPost). Slack message updates are side effects with no bearing on the
claims and are not recorded. -/
structure ApprovalState where
  cache : Cache
  durable : Durable
  sends : Nat
deriving DecidableEq, Repr

/-- The `{ success, error? }` result object of the approval handlers. -/
structure ApprovalResult where
  success : Bool
  error : Option String
deriving DecidableEq, Repr

/-- `handleEmailApproval`: reads the item with the synchronous `getPending`;
a missing item returns the not-found no-op result. Otherwise, with no
ActiveCampaign list configured (`listIdConfigured = false`) it throws before
any send; else it invokes the external send (counted), throws on
`result.success = false`, and on success updates Slack and calls
`deletePending` (cache delete synchronous; database delete attempted). -/
def handleEmailApproval (st : ApprovalState) (pendingId : String) (now : Nat)
    (listIdConfigured sendOk dbConfigured dbOk : Bool) :
    ApprovalState × ApprovalResult :=
  match getPending st.cache pendingId now with
  | (none, cache1) =>
      ({ st with cache := cache1 },
       { success := false, error := some "Message not found or expired" })
  | (some _pending, cache1) =>
      if !listIdConfigured then
        ({ st with cache := cache1 },
         { success := false, error := some "No ActiveCampaign list configured" })
      else
        let st1 : ApprovalState := { st with cache := cache1, sends := st.sends + 1 }
        if !sendOk then
          (st1, { success := false, error := some "Failed to send email" })
        else
          let del := deletePending st1.cache st1.durable dbConfigured dbOk pendingId
          ({ cache := del.2.1, durable := del.2.2, sends := st1.sends },
           { success := true, error := none })

/-- `handleCircleApproval`: same shape without the list-id check; Circle
`createPost` is the external send (counted), modelled as throwing when
`postOk = false`; success updates Slack and calls `deletePending`. -/
def handleCircleApproval (st : ApprovalState) (pendingId : String) (now : Nat)
    (postOk dbConfigured dbOk : Bool) :
    ApprovalState × ApprovalResult :=
  match getPending st.cache pendingId now with
  | (none, cache1) =>
      ({ st with cache := cache1 },
       { success := false, error := some "Message not found or expired" })
  | (some _pending, cache1) =>
      let st1 : ApprovalState := { st with cache := cache1, sends := st.sends + 1 }
      if !postOk then
        (st1, { success := false, error := some "Unknown error" })
      else
        let del := deletePending st1.cache st1.durable dbConfigured dbOk pendingId
        ({ cache := del.2.1, durable := del.2.2, sends := st1.sends },
         { success := true, error := none })

/- ### Claim theorems for the Pending Content Store -/

theorem getPending_elim (cache : Cache) (id : String) (now : Nat) (p : PendingMessage)
    (h : (getPending cache id now).1 = some p) :
    mapGet cache id = some p ∧ ¬ now > p.expiresAt := by
  cases hm : mapGet cache id with
  | none => simp [getPending, hm] at h
  | some c =>
      by_cases hexp : now > c.expiresAt
      · simp [getPending, hm, hexp] at h
      · simp [getPending, hm, hexp] at h
        exact ⟨by rw [h], by rw [← h]; exact hexp⟩

/-- C1: approving the same pending id twice, sequentially, performs exactly one
external send. The first successful approval (list configured, external send
succeeded) deletes the item from the store; the second invocation finds the
item already deleted, performs no external send, and returns the
"Message not found or expired" no-op result. Shown for both
handleEmailApproval and handleCircleApproval, for any later time `now2` and
any database configuration/outcomes. -/
theorem C1_double_approve_sends_once (st : ApprovalState) (id : String)
    (now now2 : Nat) (p : PendingMessage)
    (dbC dbOk dbC2 dbOk2 : Bool)
    (h : (getPending st.cache id now).1 = some p) :
    ((handleEmailApproval st id now true true dbC dbOk).2 =
        { success := true, error := none } ∧
      (handleEmailApproval st id now true true dbC dbOk).1.sends = st.sends + 1 ∧
      mapGet (handleEmailApproval st id now true true dbC dbOk).1.cache id = none ∧
      (handleEmailApproval
          (handleEmailApproval st id now true true dbC dbOk).1 id now2 true true dbC2 dbOk2).1.sends =
        st.sends + 1 ∧
      (handleEmailApproval
          (handleEmailApproval st id now true true dbC dbOk).1 id now2 true true dbC2 dbOk2).2 =
        { success := false, error := some "Message not found or expired" }) ∧
    ((handleCircleApproval st id now true dbC dbOk).2 =
        { success := true, error := none } ∧
      (handleCircleApproval st id now true dbC dbOk).1.sends = st.sends + 1 ∧
      mapGet (handleCircleApproval st id now true dbC dbOk).1.cache id = none ∧
      (handleCircleApproval
          (handleCircleApproval st id now true dbC dbOk).1 id now2 true dbC2 dbOk2).1.sends =
        st.sends + 1 ∧
      (handleCircleApproval
          (handleCircleApproval st id now true dbC dbOk).1 id now2 true dbC2 dbOk2).2 =
        { success := false, error := some "Message not found or expired" }) := by
  obtain ⟨hm, hexp⟩ := getPending_elim st.cache id now p h
  have hget : getPending st.cache id now = (some p, st.cache) := by
    simp [getPending, hm, hexp]
  have hemail :
      handleEmailApproval st id now true true dbC dbOk =
        ({ cache := mapDelete st.cache id
           durable := if dbC && dbOk then mapDelete st.durable id else st.durable
           sends := st.sends + 1 },
         { success := true, error := none }) := by
    unfold handleEmailApproval
    rw [hget]
    simp [deletePending]
  have hcircle :
      handleCircleApproval st id now true dbC dbOk =
        ({ cache := mapDelete st.cache id
           durable := if dbC && dbOk then mapDelete st.durable id else st.durable
           sends := st.sends + 1 },
         { success := true, error := none }) := by
    unfold handleCircleApproval
    rw [hget]
    simp [deletePending]
  have hgone : mapGet (mapDelete st.cache id) id = none := mapGet_mapDelete_self _ _
  have hget2 : getPending (mapDelete st.cache id) id now2 = (none, mapDelete st.cache id) := by
    simp [getPending, hgone]
  constructor
  · refine ⟨by rw [hemail], by rw [hemail], by rw [hemail]; exact hgone, ?_, ?_⟩
    · rw [hemail]
      unfold handleEmailApproval
      rw [hget2]
    · rw [hemail]
      unfold handleEmailApproval
      rw [hget2]
  · refine ⟨by rw [hcircle], by rw [hcircle], by rw [hcircle]; exact hgone, ?_, ?_⟩
    · rw [hcircle]
      unfold handleCircleApproval
      rw [hget2]
    · rw [hcircle]
      unfold handleCircleApproval
      rw [hget2]

/-- A concrete pending-store input used by the witnesses. -/
def exInput : CreatePendingInput :=
  { type := MessageType.reminder
    channel := MessageChannel.email
    callType := CallType.weekly
    timing := some ReminderTiming.dayBefore
    message := "Reminder body"
    metadata := some [("topic", "Email Funnel Breakdown")]
    slackMessageTs := "1733900000.000100"
    slackChannel := "C0ADMIN" }

/-- A concrete approval state holding one fresh pending item. -/
def exApprovalState : ApprovalState :=
  { cache := [("p1", mkPending exInput "p1" 0)]
    durable := [("p1", mkPending exInput "p1" 0)]
    sends := 0 }

theorem C1_witness :
    (handleEmailApproval exApprovalState "p1" 1000 true true true true).1.sends = 1 ∧
    (handleEmailApproval
        (handleEmailApproval exApprovalState "p1" 1000 true true true true).1
        "p1" 2000 true true true true).1.sends = 1 ∧
    (handleEmailApproval
        (handleEmailApproval exApprovalState "p1" 1000 true true true true).1
        "p1" 2000 true true true true).2 =
      { success := false, error := some "Message not found or expired" } := by
  have h := C1_double_approve_sends_once exApprovalState "p1" 1000 2000
    (mkPending exInput "p1" 0) true true true true (by decide)
  exact ⟨h.1.2.1, h.1.2.2.2.1, h.1.2.2.2.2⟩

/-- C2: `storePending` writes the new item into the in-memory cache
synchronously, independently of the fire-and-forget durable write, so a
`getPending` with the returned id immediately afterwards returns the item for
every durable-write outcome — including `dbWriteOk = false` (write failed) and
`dbConfigured && dbWriteOk = false` cases where the durable tier is untouched,
i.e. the write has not landed. -/
theorem C2_create_cache_first (cache : Cache) (durable : Durable)
    (dbConfigured dbWriteOk : Bool) (input : CreatePendingInput) (id : String) (now : Nat) :
    (storePending cache durable dbConfigured dbWriteOk input id now).2.2 = id ∧
    (getPending (storePending cache durable dbConfigured dbWriteOk input id now).1 id now).1 =
      some (mkPending input id now) ∧
    (storePending cache durable dbConfigured dbWriteOk input id now).1 =
      (storePending cache durable dbConfigured false input id now).1 := by
  refine ⟨rfl, ?_, rfl⟩
  have hset : mapGet (storePending cache durable dbConfigured dbWriteOk input id now).1 id =
      some (mkPending input id now) := mapGet_mapSet_self _ _ _
  have hexp : ¬ now > (mkPending input id now).expiresAt := by
    simp [mkPending]
  simp [getPending, hset, hexp]

/-- C3: the item created at time `T` has `expiresAt = T + 24h`; the expiry
check runs on every read: `getPending` returns the item at any read time
`t ≤ T + 24h` and not-found at any `t > T + 24h`; and the durable query
(`getPendingAsync`) only ever returns rows with `expires_at > now`. -/
theorem C3_ttl_boundary (cache : Cache) (durable : Durable)
    (dbConfigured dbWriteOk : Bool) (input : CreatePendingInput) (id : String) (T t : Nat) :
    (mkPending input id T).expiresAt = T + 24 * 60 * 60 * 1000 ∧
    (t ≤ T + EXPIRY_MS →
      (getPending (storePending cache durable dbConfigured dbWriteOk input id T).1 id t).1 =
        some (mkPending input id T)) ∧
    (T + EXPIRY_MS < t →
      (getPending (storePending cache durable dbConfigured dbWriteOk input id T).1 id t).1 =
        none) ∧
    (∀ row, getPendingAsync durable dbConfigured id t = some row → t < row.expiresAt) := by
  have hset : mapGet (storePending cache durable dbConfigured dbWriteOk input id T).1 id =
      some (mkPending input id T) := mapGet_mapSet_self _ _ _
  refine ⟨rfl, ?_, ?_, ?_⟩
  · intro ht
    have hexp : ¬ t > (mkPending input id T).expiresAt := by
      simp [mkPending, EXPIRY_MS] at *
      omega
    simp [getPending, hset, hexp]
  · intro ht
    have hexp : t > (mkPending input id T).expiresAt := by
      simp [mkPending, EXPIRY_MS] at *
      omega
    simp [getPending, hset, hexp]
  · intro row hrow
    cases dbConfigured with
    | false => simp [getPendingAsync] at hrow
    | true =>
        cases hd : mapGet durable id with
        | none => simp [getPendingAsync, hd] at hrow
        | some r =>
            by_cases hfresh : t < r.expiresAt
            · simp [getPendingAsync, hd, hfresh] at hrow
              rw [← hrow]
              exact hfresh
            · simp [getPendingAsync, hd, hfresh] at hrow

theorem C3_witness :
    (getPending (storePending [] [] false false exInput "p1" 0).1 "p1" 86340000).1 =
      some (mkPending exInput "p1" 0) ∧
    (getPending (storePending [] [] false false exInput "p1" 0).1 "p1" 86460000).1 = none :=
  ⟨(C3_ttl_boundary [] [] false false exInput "p1" 0 86340000).2.1 (by decide),
   (C3_ttl_boundary [] [] false false exInput "p1" 0 86460000).2.2.1 (by decide)⟩

/-- C8: for an id absent from the cache, `getPendingWithFallback` performs the
durable-store lookup; a non-expired row found only in the durable store is
returned to the caller, and the cache is repopulated with it. (The purely
synchronous `getPending` variant only schedules the repopulation and returns
null on a miss; the fallback read is the one carrying this contract.) -/
theorem C8_cache_miss_durable_fallback (cache : Cache) (durable : Durable)
    (id : String) (now : Nat) (row : PendingMessage)
    (hmiss : mapGet cache id = none)
    (hdb : mapGet durable id = some row)
    (hfresh : now < row.expiresAt) :
    (getPendingWithFallback cache durable true id now).1 = some row ∧
    mapGet (getPendingWithFallback cache durable true id now).2 id = some row := by
  have hasync : getPendingAsync durable true id now = some row := by
    simp [getPendingAsync, hdb, hfresh]
  constructor
  · simp [getPendingWithFallback, hmiss, hasync]
  · simp [getPendingWithFallback, hmiss, hasync, mapGet_mapSet_self]

theorem C8_witness :
    (getPendingWithFallback [] [("p1", mkPending exInput "p1" 0)] true "p1" 1000).1 =
      some (mkPending exInput "p1" 0) ∧
    mapGet (getPendingWithFallback [] [("p1", mkPending exInput "p1" 0)] true "p1" 1000).2 "p1" =
      some (mkPending exInput "p1" 0) :=
  C8_cache_miss_durable_fallback [] [("p1", mkPending exInput "p1" 0)] "p1" 1000
    (mkPending exInput "p1" 0) (by decide) (by decide) (by decide)

theorem mapGet_dbUpdateMessageRows (durable : Durable) (id msg : String) (now : Nat)
    (row : PendingMessage) (hrow : mapGet durable id = some row) (hfresh : now < row.expiresAt) :
    mapGet (dbUpdateMessageRows durable id msg now) id = some { row with message := msg } := by
  induction durable with
  | nil => simp [mapGet, List.lookup] at hrow
  | cons p rest ih =>
      by_cases h : id = p.1
      · have hk : (id == p.1) = true := by simp [h]
        have hpk : (p.1 == id) = true := by simp [h]
        have hrow2 : p.2 = row := by
          simp only [mapGet, List.lookup, hk] at hrow
          exact Option.some.inj hrow
        have hc : (p.1 == id && decide (now < p.2.expiresAt)) = true := by
          rw [hpk, hrow2]
          simp [hfresh]
        unfold dbUpdateMessageRows
        rw [List.map_cons, if_pos hc]
        simp only [mapGet, List.lookup, hk, hrow2]
      · have hk : (id == p.1) = false := by simp [h]
        have hpk0 : (p.1 == id) = false := by
          simp
          exact fun hkk => (h hkk.symm).elim
        have hcf : ¬ ((p.1 == id && decide (now < p.2.expiresAt)) = true) := by
          rw [hpk0, Bool.false_and]
          exact Bool.false_ne_true
        have hrest : mapGet rest id = some row := by
          simpa [mapGet, List.lookup, hk] using hrow
        have ih2 := ih hrest
        unfold dbUpdateMessageRows at ih2 ⊢
        rw [List.map_cons, if_neg hcf]
        simpa [mapGet, List.lookup, hk] using ih2

/-- C10: `updatePendingMessage` returns true exactly when the id is present in
the in-memory cache at the time of the call — for every database
configuration and every durable-update outcome, so the durable write never
changes the returned value. Consequently an item that exists only in the
durable store (e.g. after a restart) yields false, even though the durable row
itself is updated when the UPDATE succeeds. -/
theorem C10_update_result_is_cache_presence (cache : Cache) (durable : Durable)
    (dbConfigured dbUpdateOk : Bool) (id msg : String) (now : Nat) (row : PendingMessage) :
    ((updatePendingMessage cache durable dbConfigured dbUpdateOk id msg now).1 =
      mapHas cache id) ∧
    (mapGet cache id = none → mapGet durable id = some row → now < row.expiresAt →
      (updatePendingMessage cache durable true true id msg now).1 = false ∧
      mapGet (updatePendingMessage cache durable true true id msg now).2.2 id =
        some { row with message := msg }) := by
  constructor
  · rfl
  · intro hmiss hrow hfresh
    constructor
    · simp [updatePendingMessage, hmiss, mapHas]
    · simp only [updatePendingMessage, Bool.and_self, if_true]
      exact mapGet_dbUpdateMessageRows durable id msg now row hrow hfresh

theorem C10_witness :
    (updatePendingMessage [] [("p1", mkPending exInput "p1" 0)] true true "p1" "edited" 1000).1 =
      false ∧
    mapGet
      (updatePendingMessage [] [("p1", mkPending exInput "p1" 0)] true true
        "p1" "edited" 1000).2.2 "p1" =
      some { mkPending exInput "p1" 0 with message := "edited" } :=
  (C10_update_result_is_cache_presence [] [("p1", mkPending exInput "p1" 0)] true true
    "p1" "edited" 1000 (mkPending exInput "p1" 0)).2 (by decide) (by decide) (by decide)

/- ### Topic watcher (src/workflows/topic-watcher.ts) -/

/-- `const DUPLICATE_WINDOW_MS = 24 * 60 * 60 * 1000`. -/
def DUPLICATE_WINDOW_MS : Nat := 24 * 60 * 60 * 1000

/-- `const TOPIC_REQUEST_WINDOW_MS = 4 * 60 * 60 * 1000`. -/
def TOPIC_REQUEST_WINDOW_MS : Nat := 4 * 60 * 60 * 1000

/-- `const TOPIC_REQUEST_MESSAGE_EXPIRY_MS = 48 * 60 * 60 * 1000`. -/
def TOPIC_REQUEST_MESSAGE_EXPIRY_MS : Nat := 48 * 60 * 60 * 1000

/-- `const MAX_RECENT_MESSAGES = 12`. -/
def MAX_RECENT_MESSAGES : Nat := 12

/- #### Executable matchers for the RegExp literals of topic-watcher.ts.
The watcher always tests against the already-lowercased text, so the `i` flag
is immaterial. A dot in these patterns does not match a newline and no
alternative contains a newline, so an unanchored `a.*b` pattern matches the
string iff it matches within a single newline-separated line. -/

/-- Drop everything up to and including the first occurrence of `a`; `none`
when `a` does not occur. Used for `a.*rest` matching: alternation/occurrence
existence is monotone in the remaining suffix, so committing to the first
occurrence is equivalent to trying all of them. -/
def dropThroughFirst (a : List Char) : List Char → Option (List Char)
  | [] => if a.isEmpty then some [] else none
  | c :: cs =>
      if listIsPre a (c :: cs) then some (List.drop a.length (c :: cs))
      else dropThroughFirst a cs

/-- `seqTail pats cs` : the pattern `alts₁.*alts₂.*…` (each `altsᵢ` an
alternation group of plain strings) matches somewhere inside `cs`. -/
def seqTail : List (List (List Char)) → List Char → Bool
  | [], _ => true
  | alts :: rest, cs =>
      alts.any fun a =>
        match dropThroughFirst a cs with
        | some remainder => seqTail rest remainder
        | none => false

/-- Unanchored match of `alts₁.*alts₂.*…` against a string, line by line
(`.` does not cross a newline). -/
def matchesSeqPattern (s : String) (pats : List (List String)) : Bool :=
  (splitOnNewline s.toList).any fun line =>
    seqTail (pats.map (fun alts => alts.map String.toList)) line

/-- `isTopicRequest` (topic-watcher.ts, lines 233-245): the seven
topic-request RegExps. In the first pattern the optional group
(apostrophe-s / " is" / " will be") is directly followed by `.*` and none of
its alternatives contains a newline, so it is absorbed by the `.*`;
the second pattern has no `.*` and is a plain five-way containment test. -/
def isTopicRequest (lowerText : String) : Bool :=
  matchesSeqPattern lowerText [["what"], ["topic", "covering", "doing"]] ||
  (["topic for tomorrow", "topic for today", "topic for the call",
    "topic for this week", "topic for next"].any fun t => strContains lowerText t) ||
  matchesSeqPattern lowerText [["whenever you have"], ["topic", "it"]] ||
  matchesSeqPattern lowerText [["let me know"], ["topic", "what"]] ||
  matchesSeqPattern lowerText [["what"], ["call", "training"], ["about", "on", "cover"]] ||
  matchesSeqPattern lowerText [["do you have"], ["topic", "idea what"]] ||
  matchesSeqPattern lowerText [["any idea"], ["topic", "what"]]

/-- The character class `[\s!.]`. -/
def isWsBangDot (c : Char) : Bool :=
  c.isWhitespace || c == '!' || c == '.'

/-- The character class `[\s!.,]`. -/
def isWsBangDotComma (c : Char) : Bool :=
  c.isWhitespace || c == '!' || c == '.' || c == ','

/-- Anchored `^(alt|…)[cls]*$` match. -/
def anchoredTailClass (s : String) (alts : List String) (cls : Char → Bool) : Bool :=
  alts.any fun w =>
    listIsPre w.toList s.toList && (s.toList.drop w.toList.length).all cls

/-- Anchored `^(alt|…)` match (no trailing anchor). -/
def startsWithAny (s : String) (alts : List String) : Bool :=
  alts.any fun w => listIsPre w.toList s.toList

/-- `\w`, i.e. `[A-Za-z0-9_]`. -/
def isWordChar (c : Char) : Bool :=
  (decide (c ≥ 'a') && decide (c ≤ 'z')) || (decide (c ≥ 'A') && decide (c ≤ 'Z')) ||
  (decide (c ≥ '0') && decide (c ≤ '9')) || c == '_'

/-- The pattern `^@\w+\s+(thanks|thank|appreciate)`: since `\w` and `\s` are
disjoint and the final alternatives start with non-whitespace word characters,
the greedy maximal runs are equivalent to the regex's backtracking search. -/
def atMentionThanks (s : String) : Bool :=
  match s.toList with
  | '@' :: rest =>
      let wordRun := rest.takeWhile isWordChar
      let afterWord := rest.dropWhile isWordChar
      let wsRun := afterWord.takeWhile Char.isWhitespace
      let afterWs := afterWord.dropWhile Char.isWhitespace
      !wordRun.isEmpty && !wsRun.isEmpty &&
        (["thanks", "thank", "appreciate"].any fun w => listIsPre w.toList afterWs)
  | _ => false

/-- The `alwaysSkipPatterns` list of `isObviouslyNotTopic`
(topic-watcher.ts, lines 280-287): canned acknowledgements, laughter,
yes/no answers, greetings and away-markers, applied regardless of context. -/
def matchesAlwaysSkip (lowerText : String) : Bool :=
  anchoredTailClass lowerText ["thanks", "thank you", "thx", "ty"] isWsBangDot ||
  anchoredTailClass lowerText ["ok", "okay", "k", "kk", "sounds good", "got it", "perfect"]
    isWsBangDot ||
  startsWithAny lowerText ["lol", "lmao", "haha", "😂", "🤣"] ||
  anchoredTailClass lowerText ["yes", "no", "yeah", "nope", "yep", "nah"] isWsBangDot ||
  anchoredTailClass lowerText ["hi", "hey", "hello", "good morning", "gm"] isWsBangDotComma ||
  startsWithAny lowerText ["brb", "gtg", "ttyl"]

/-- The `skipWhenNotExpecting` list (topic-watcher.ts, lines 299-303):
trailing question mark (`$` = end of string, no `m` flag), thanks addressed to
a mention, and will-share-later promises. -/
def matchesSkipWhenNotExpecting (lowerText : String) : Bool :=
  (match lowerText.toList.getLast? with
   | some c => c == '?'
   | none => false) ||
  atMentionThanks lowerText ||
  matchesSeqPattern lowerText [["will share", "will send", "will post"],
    ["soon", "later", "tomorrow"]]

/-- `isObviouslyNotTopic` (topic-watcher.ts, lines 274-310): length floor of
10 when expecting a topic and 20 otherwise (String.length, code units; all
pattern-relevant texts here are ASCII so this equals the character count),
then the always-skip patterns, then — only when not expecting a topic — the
extra question/promise filters. -/
def isObviouslyNotTopic (lowerText : String) (expectingTopic : Bool) : Bool :=
  let minLength := if expectingTopic then 10 else 20
  if lowerText.length < minLength then true
  else if matchesAlwaysSkip lowerText then true
  else if expectingTopic then false
  else matchesSkipWhenNotExpecting lowerText

/- #### Classifier response handling (claude service, detectTopicInMessage) -/

/-- The `{ isTopic, topic, description }` result of topic detection. -/
structure TopicInfo where
  isTopic : Bool
  topic : String
  description : String
deriving DecidableEq, Repr

/-- The JSON object recovered from the classifier response text by
`responseText.match(/\{[\s\S]*\}/)` followed by `JSON.parse`. Each field
records the parsed JSON value when it has the expected shape: `isTopicField`
is `some b` for a JSON boolean (anything else compares `=== true` as false),
the string fields are `none` when absent/falsy (`parsed.topic || ""`). -/
structure ParsedTopicJson where
  isTopicField : Option Bool
  topicField : Option String
  descriptionField : Option String
deriving DecidableEq, Repr

/-- `detectTopicInMessage` result handling: a parsed JSON object is coerced
field-wise; an unparsable response (no JSON object found, or `JSON.parse`
threw, argument `none`) falls through to
`{ isTopic: false, topic: "", description: "" }`. -/
def detectTopicInMessage (parse : Option ParsedTopicJson) : TopicInfo :=
  match parse with
  | some parsed =>
      { isTopic := parsed.isTopicField == some true
        topic := parsed.topicField.getD ""
        description := parsed.descriptionField.getD "" }
  | none => { isTopic := false, topic := "", description := "" }

/-- `detectTopicAnnouncement` (topic-watcher.ts, lines 315-331): wraps the
external classifier call in try/catch; a thrown error (`Except.error`) is
caught, logged, and replaced by the all-false result. -/
def detectTopicAnnouncement (call : Except Unit (Option ParsedTopicJson)) : TopicInfo :=
  match call with
  | Except.ok parse => detectTopicInMessage parse
  | Except.error _ => { isTopic := false, topic := "", description := "" }

/- #### Watcher state and transitions -/

/-- TopicRequestContext (topic-watcher.ts, lines 18-22). -/
structure TopicRequestContext where
  askedBy : String
  askedAt : Nat
  message : String
deriving DecidableEq, Repr

/-- One `processedTopics` entry: `{ topic, timestamp }`. -/
structure ProcessedTopic where
  topic : String
  timestamp : Nat
deriving DecidableEq, Repr

/-- One `recentMessages` entry. -/
structure RecentMessage where
  user : String
  text : String
  ts : String
deriving DecidableEq, Repr

/-- The module-level mutable state of topic-watcher.ts: `processedTopics`
(keyed by message ts), `pendingTopicRequest`, `recentMessages`, and
`topicRequestMessages` (ts ↦ (message, tracked-at)). -/
structure WatcherState where
  processedTopics : StrMap ProcessedTopic
  pendingTopicRequest : Option TopicRequestContext
  recentMessages : List RecentMessage
  topicRequestMessages : StrMap (String × Nat)
deriving DecidableEq, Repr

/-- `addToRecentMessages` (lines 250-255): push, then shift when over
capacity. -/
def addToRecentMessages (buf : List RecentMessage) (user text ts : String) :
    List RecentMessage :=
  let buf1 := buf ++ [{ user := user, text := text, ts := ts }]
  if buf1.length > MAX_RECENT_MESSAGES then buf1.drop 1 else buf1

/-- `trackTopicRequestMessage` (lines 141-154): purge entries older than 48h,
then record the request message under its ts. -/
def trackTopicRequestMessage (m : StrMap (String × Nat)) (ts msg : String) (now : Nat) :
    StrMap (String × Nat) :=
  let cleaned := m.filter fun e => !(decide (TOPIC_REQUEST_MESSAGE_EXPIRY_MS < now - e.2.2))
  mapSet cleaned ts (msg, now)

/-- `checkDuplicate` (topic-watcher.ts, lines 364-387): normalize the
candidate (lowercase, trim), purge records older than the 24h window, then
report a duplicate when a surviving record is equal to, contains, or is
contained in the candidate. Returns the flag and the purged map (the source
mutates `processedTopics` in place). -/
def checkDuplicate (topic : String) (processedTopics : StrMap ProcessedTopic) (now : Nat) :
    Bool × StrMap ProcessedTopic :=
  let normalizedTopic := strTrim (strToLower topic)
  let pruned := processedTopics.filter fun e =>
    !(decide (DUPLICATE_WINDOW_MS < now - e.2.timestamp))
  let isDup := pruned.any fun e =>
    let existingNormalized := strTrim (strToLower e.2.topic)
    existingNormalized == normalizedTopic ||
    strContains existingNormalized normalizedTopic ||
    strContains normalizedTopic existingNormalized
  (isDup, pruned)

/-- `markAsProcessed` (lines 392-397): record the accepted topic under the
message ts. -/
def markAsProcessed (processedTopics : StrMap ProcessedTopic) (topic : String)
    (messageTs : String) (now : Nat) : StrMap ProcessedTopic :=
  mapSet processedTopics messageTs { topic := topic, timestamp := now }

/-- The lazy expiry of `pendingTopicRequest` (topic-watcher.ts, lines 83-89):
on the next incoming non-request message, a pending request older than the 4h
window is cleared; a younger one is kept. -/
def lazyExpireRequest (pending : Option TopicRequestContext) (now : Nat) :
    Option TopicRequestContext :=
  match pending with
  | some r => if TOPIC_REQUEST_WINDOW_MS < now - r.askedAt then none else some r
  | none => none

/-- One inbound chat event (channel message). -/
structure ChannelEvent where
  channel : String
  user : String
  text : String
  ts : String
  thread_ts : Option String
deriving DecidableEq, Repr

/-- Observations of one `handleChannelMessage` run: whether the message was
recorded as a topic request, whether the external classifier was invoked, the
`expectingTopic` flag in force at the pre-filter/classifier stage (`none`
when handling ended before that stage), and the accepted topic forwarded to
the admin notification (`none` when none was). -/
structure HandleOutcome where
  requestDetected : Bool
  classifierInvoked : Bool
  expectingFlagUsed : Option Bool
  acceptedTopic : Option String
deriving DecidableEq, Repr

/-- The no-observation outcome. -/
def noHandleOutcome : HandleOutcome :=
  { requestDetected := false, classifierInvoked := false,
    expectingFlagUsed := none, acceptedTopic := none }

/-- `handleThreadReply` (topic-watcher.ts, lines 159-228): a thread reply is
checked against `topicRequestMessages`; `expectingTopic` for the filter and
classifier is whether the parent was a tracked topic request; an accepted
topic is marked processed, clears `pendingTopicRequest` and removes the
parent from tracking. `determineCallType` and the admin notification are
external effects with no influence on this state. -/
def handleThreadReply (st : WatcherState) (text ts thread_ts : String) (now : Nat)
    (cls : Except Unit (Option ParsedTopicJson)) : WatcherState × HandleOutcome :=
  let lowerText := strToLower text
  let isReplyToTopicRequest := (mapGet st.topicRequestMessages thread_ts).isSome
  if isObviouslyNotTopic lowerText isReplyToTopicRequest then
    (st, { noHandleOutcome with expectingFlagUsed := some isReplyToTopicRequest })
  else
    let topicInfo := detectTopicAnnouncement cls
    if !topicInfo.isTopic then
      (st, { noHandleOutcome with
               classifierInvoked := true
               expectingFlagUsed := some isReplyToTopicRequest })
    else
      let dup := checkDuplicate topicInfo.topic st.processedTopics now
      if dup.1 then
        ({ st with processedTopics := dup.2 },
         { noHandleOutcome with
             classifierInvoked := true
             expectingFlagUsed := some isReplyToTopicRequest })
      else
        ({ st with
            processedTopics := markAsProcessed dup.2 topicInfo.topic ts now
            pendingTopicRequest := none
            topicRequestMessages := mapDelete st.topicRequestMessages thread_ts },
         { noHandleOutcome with
             classifierInvoked := true
             expectingFlagUsed := some isReplyToTopicRequest
             acceptedTopic := some topicInfo.topic })

/-- The evaluation stage of the main path (topic-watcher.ts, lines 91-128):
pre-filter under `expectingTopic`, classifier call, duplicate check and
acceptance. `st2` already carries the lazily-expired pending request;
`lowerText` is the lowercased message and `ts` its timestamp. -/
def evaluateMessage (st2 : WatcherState) (lowerText ts : String) (expectingTopic : Bool)
    (now : Nat) (cls : Except Unit (Option ParsedTopicJson)) :
    WatcherState × HandleOutcome :=
  if isObviouslyNotTopic lowerText expectingTopic then
    (st2, { noHandleOutcome with expectingFlagUsed := some expectingTopic })
  else if !(detectTopicAnnouncement cls).isTopic then
    (st2, { noHandleOutcome with
              classifierInvoked := true
              expectingFlagUsed := some expectingTopic })
  else if (checkDuplicate (detectTopicAnnouncement cls).topic st2.processedTopics now).1 then
    ({ st2 with
        processedTopics :=
          (checkDuplicate (detectTopicAnnouncement cls).topic st2.processedTopics now).2 },
     { noHandleOutcome with
         classifierInvoked := true
         expectingFlagUsed := some expectingTopic })
  else
    ({ st2 with
        processedTopics :=
          markAsProcessed
            (checkDuplicate (detectTopicAnnouncement cls).topic st2.processedTopics now).2
            (detectTopicAnnouncement cls).topic ts now
        pendingTopicRequest := none },
     { noHandleOutcome with
         classifierInvoked := true
         expectingFlagUsed := some expectingTopic
         acceptedTopic := some (detectTopicAnnouncement cls).topic })

/-- `handleChannelMessage` (topic-watcher.ts, lines 39-128). `watchedChannel`
is `env.SLACK_CA_PRO_CHANNEL_ID`; `cls` is the external classifier oracle for
this message. Steps, in source order: channel guard; empty-text guard; thread
replies delegated; recent-messages buffer append; topic-request detection
(which records the request and returns); lazy expiry of the pending request;
pre-filter with `expectingTopic`; classifier; duplicate check; accept. -/
def handleChannelMessage (watchedChannel : String) (st : WatcherState) (ev : ChannelEvent)
    (now : Nat) (cls : Except Unit (Option ParsedTopicJson)) :
    WatcherState × HandleOutcome :=
  if ev.channel != watchedChannel then (st, noHandleOutcome)
  else if (strTrim ev.text).length == 0 then (st, noHandleOutcome)
  else
    let lowerText := strToLower ev.text
    match ev.thread_ts with
    | some tts => handleThreadReply st ev.text ev.ts tts now cls
    | none =>
        let st1 := { st with
          recentMessages := addToRecentMessages st.recentMessages ev.user ev.text ev.ts }
        if isTopicRequest lowerText then
          ({ st1 with
              pendingTopicRequest :=
                some { askedBy := ev.user, askedAt := now, message := ev.text }
              topicRequestMessages :=
                trackTopicRequestMessage st1.topicRequestMessages ev.ts ev.text now },
           { noHandleOutcome with requestDetected := true })
        else
          evaluateMessage { st1 with
              pendingTopicRequest := lazyExpireRequest st1.pendingTopicRequest now }
            lowerText ev.ts (lazyExpireRequest st1.pendingTopicRequest now).isSome now cls

/- ### Claim theorems for the topic watcher -/

/-- C4: when the semantic classifier call throws (`Except.error`) or returns
unparsable output (`Except.ok none`: no JSON object found, or JSON.parse
threw), topic detection returns `isTopic = false` with empty topic and
description; `detectTopicAnnouncement` is a total function into `TopicInfo`,
so no error reaches its caller. -/
theorem C4_classifier_fails_closed (call : Except Unit (Option ParsedTopicJson))
    (h : call = Except.error () ∨ call = Except.ok none) :
    detectTopicAnnouncement call = { isTopic := false, topic := "", description := "" } := by
  rcases h with h | h <;> subst h <;> rfl

theorem C4_witness :
    detectTopicAnnouncement (Except.error ()) =
      { isTopic := false, topic := "", description := "" } ∧
    detectTopicAnnouncement (Except.ok none) =
      { isTopic := false, topic := "", description := "" } :=
  ⟨C4_classifier_fails_closed (Except.error ()) (Or.inl rfl),
   C4_classifier_fails_closed (Except.ok none) (Or.inr rfl)⟩

/-- The `expectingTopic` flag in force for a non-thread, non-request message
arriving at `now`: whether the pending topic request survives lazy expiry. -/
def activeExpecting (st : WatcherState) (now : Nat) : Bool :=
  (lazyExpireRequest st.pendingTopicRequest now).isSome

/-- The disjunction of the pre-filter clauses implies the filter fires. -/
theorem isObviouslyNotTopic_of (s : String) (e : Bool)
    (h : s.length < (if e then 10 else 20) ∨ matchesAlwaysSkip s = true ∨
      (e = false ∧ matchesSkipWhenNotExpecting s = true)) :
    isObviouslyNotTopic s e = true := by
  unfold isObviouslyNotTopic
  rcases h with h | h | ⟨he, h⟩
  · simp [h]
  · by_cases hlen : s.length < (if e then 10 else 20)
    · simp [hlen]
    · simp [hlen, h]
  · subst he
    by_cases hlen : s.length < 20
    · simp [hlen]
    · by_cases hskip : matchesAlwaysSkip s = true
      · simp [hlen, hskip]
      · simp [hlen, hskip, h]

/-- The evaluation stage always records the `expectingTopic` flag it ran
under. -/
theorem evaluateMessage_flag (st2 : WatcherState) (lowerText ts : String)
    (e : Bool) (now : Nat) (cls : Except Unit (Option ParsedTopicJson)) :
    (evaluateMessage st2 lowerText ts e now cls).2.expectingFlagUsed = some e := by
  unfold evaluateMessage
  split
  · rfl
  · split
    · rfl
    · split
      · rfl
      · rfl

/-- The classifier is invoked exactly when the pre-filter passes. -/
theorem evaluateMessage_invoked (st2 : WatcherState) (lowerText ts : String)
    (e : Bool) (now : Nat) (cls : Except Unit (Option ParsedTopicJson)) :
    (evaluateMessage st2 lowerText ts e now cls).2.classifierInvoked =
      !(isObviouslyNotTopic lowerText e) := by
  unfold evaluateMessage
  by_cases hf : isObviouslyNotTopic lowerText e
  · rw [if_pos hf, hf]
    rfl
  · have hf0 : isObviouslyNotTopic lowerText e = false := by simpa using hf
    rw [if_neg hf, hf0]
    split
    · rfl
    · split
      · rfl
      · rfl

/-- The evaluation stage never creates a pending request. -/
theorem evaluateMessage_pending (st2 : WatcherState) (lowerText ts : String)
    (e : Bool) (now : Nat) (cls : Except Unit (Option ParsedTopicJson))
    (h : st2.pendingTopicRequest = none) :
    (evaluateMessage st2 lowerText ts e now cls).1.pendingTopicRequest = none := by
  unfold evaluateMessage
  split
  · exact h
  · split
    · exact h
    · split
      · exact h
      · rfl

/-- In the main (watched-channel, non-empty, non-thread, non-request) path,
`handleChannelMessage` reduces to the evaluation stage over the lazily-expired
request state, with `expectingTopic = activeExpecting st now`. -/
theorem handleChannelMessage_main_eq (watchedChannel : String) (st : WatcherState)
    (ev : ChannelEvent) (now : Nat) (cls : Except Unit (Option ParsedTopicJson))
    (hchan : ev.channel = watchedChannel) (hne : ((strTrim ev.text).length == 0) = false)
    (hthread : ev.thread_ts = none) (hreq : isTopicRequest (strToLower ev.text) = false) :
    handleChannelMessage watchedChannel st ev now cls =
      evaluateMessage
        { st with
            recentMessages := addToRecentMessages st.recentMessages ev.user ev.text ev.ts
            pendingTopicRequest := lazyExpireRequest st.pendingTopicRequest now }
        (strToLower ev.text) ev.ts (activeExpecting st now) now cls := by
  have hchan' : (ev.channel != watchedChannel) = false := by simp [hchan]
  unfold handleChannelMessage
  simp only [hchan', hne, Bool.false_eq_true, if_false, hthread, hreq]
  rfl

/-- C5: a message shorter than the active minimum length (10 when a topic is
expected, else 20), or matching an always-skip canned phrase, or — when no
topic is expected — a trailing question / will-share-later promise, never
reaches the semantic classifier and is never accepted as a topic, whatever
the classifier oracle would have answered. -/
theorem C5_prefilter_blocks_classifier (watchedChannel : String) (st : WatcherState)
    (ev : ChannelEvent) (now : Nat) (cls : Except Unit (Option ParsedTopicJson))
    (hthread : ev.thread_ts = none)
    (hshort : (strToLower ev.text).length < (if activeExpecting st now then 10 else 20) ∨
      matchesAlwaysSkip (strToLower ev.text) = true ∨
      (activeExpecting st now = false ∧ matchesSkipWhenNotExpecting (strToLower ev.text) = true)) :
    (handleChannelMessage watchedChannel st ev now cls).2.classifierInvoked = false ∧
    (handleChannelMessage watchedChannel st ev now cls).2.acceptedTopic = none := by
  have hfilter : isObviouslyNotTopic (strToLower ev.text) (activeExpecting st now) = true :=
    isObviouslyNotTopic_of _ _ hshort
  by_cases hchan : ev.channel = watchedChannel
  · by_cases hne : ((strTrim ev.text).length == 0) = true
    · have hchan' : (ev.channel != watchedChannel) = false := by simp [hchan]
      constructor <;> simp [handleChannelMessage, hchan', hne, noHandleOutcome]
    · have hne0 : ((strTrim ev.text).length == 0) = false := by simpa using hne
      by_cases hreq : isTopicRequest (strToLower ev.text) = true
      · have hchan' : (ev.channel != watchedChannel) = false := by simp [hchan]
        constructor <;>
          simp [handleChannelMessage, hchan', hne0, hthread, hreq, noHandleOutcome]
      · have hreq0 : isTopicRequest (strToLower ev.text) = false := by simpa using hreq
        rw [handleChannelMessage_main_eq watchedChannel st ev now cls hchan hne0 hthread hreq0]
        constructor
        · rw [evaluateMessage_invoked, hfilter]
          rfl
        · unfold evaluateMessage
          rw [if_pos hfilter]
          rfl
  · have hchan' : (ev.channel != watchedChannel) = true := by simp [hchan]
    constructor <;> simp [handleChannelMessage, hchan', noHandleOutcome]

/-- The empty watcher state (fresh module load). -/
def exWatcherState : WatcherState :=
  { processedTopics := []
    pendingTopicRequest := none
    recentMessages := []
    topicRequestMessages := [] }

/-- A classifier oracle that would answer positively — used by witnesses to
show the pre-filter result does not depend on it. -/
def exOkParse : Except Unit (Option ParsedTopicJson) :=
  Except.ok (some
    { isTopicField := some true
      topicField := some "Email Funnel Breakdown"
      descriptionField := some "How to structure the funnel" })

/-- A canned acknowledgement event. -/
def exSkipEvent : ChannelEvent :=
  { channel := "CPRO", user := "U2", text := "thanks!", ts := "200.1", thread_ts := none }

theorem C5_witness :
    (handleChannelMessage "CPRO" exWatcherState exSkipEvent 1000 exOkParse).2.classifierInvoked =
      false ∧
    (handleChannelMessage "CPRO" exWatcherState exSkipEvent 1000 exOkParse).2.acceptedTopic =
      none :=
  C5_prefilter_blocks_classifier "CPRO" exWatcherState exSkipEvent 1000 exOkParse rfl
    (Or.inl (by decide))

/-- C6: with a topic request pending (`Awaiting`), any non-request,
non-thread channel message within the 4h window is evaluated with
`expectingTopic = true` — and reaches the classifier whenever it passes the
relaxed 10-character filter; once the window has elapsed, the next incoming
message lazily clears the awaiting state and is evaluated with
`expectingTopic = false`, i.e. under the stricter default filters. -/
theorem C6_request_window (watchedChannel : String) (st : WatcherState)
    (ev : ChannelEvent) (now : Nat) (cls : Except Unit (Option ParsedTopicJson))
    (r : TopicRequestContext)
    (hchan : ev.channel = watchedChannel) (hne : ((strTrim ev.text).length == 0) = false)
    (hthread : ev.thread_ts = none) (hreq : isTopicRequest (strToLower ev.text) = false)
    (hpend : st.pendingTopicRequest = some r) :
    (now - r.askedAt ≤ TOPIC_REQUEST_WINDOW_MS →
      (handleChannelMessage watchedChannel st ev now cls).2.expectingFlagUsed = some true ∧
      (isObviouslyNotTopic (strToLower ev.text) true = false →
        (handleChannelMessage watchedChannel st ev now cls).2.classifierInvoked = true)) ∧
    (TOPIC_REQUEST_WINDOW_MS < now - r.askedAt →
      (handleChannelMessage watchedChannel st ev now cls).1.pendingTopicRequest = none ∧
      (handleChannelMessage watchedChannel st ev now cls).2.expectingFlagUsed = some false) := by
  rw [handleChannelMessage_main_eq watchedChannel st ev now cls hchan hne hthread hreq]
  constructor
  · intro hwin
    have hnl : ¬ TOPIC_REQUEST_WINDOW_MS < now - r.askedAt := Nat.not_lt.mpr hwin
    have hact : activeExpecting st now = true := by
      simp [activeExpecting, lazyExpireRequest, hpend, hnl]
    constructor
    · rw [hact]
      exact evaluateMessage_flag _ _ _ _ _ _
    · intro hfilt
      rw [hact, evaluateMessage_invoked, hfilt]
      rfl
  · intro hlt
    have hact : activeExpecting st now = false := by
      simp [activeExpecting, lazyExpireRequest, hpend, hlt]
    have hnone : lazyExpireRequest st.pendingTopicRequest now = none := by
      cases hc : lazyExpireRequest st.pendingTopicRequest now with
      | none => rfl
      | some x =>
          unfold activeExpecting at hact
          rw [hc] at hact
          simp at hact
    constructor
    · exact evaluateMessage_pending _ _ _ _ _ _ hnone
    · rw [hact]
      exact evaluateMessage_flag _ _ _ _ _ _

/-- A watcher state in `Awaiting`: the topic was asked at time 0. -/
def exAwaitState : WatcherState :=
  { processedTopics := []
    pendingTopicRequest :=
      some { askedBy := "U1", askedAt := 0, message := "whats the topic for tomorrow" }
    recentMessages := []
    topicRequestMessages := [] }

/-- An 18-character candidate announcement (below the default 20-character
floor, above the relaxed 10-character floor). -/
def exTopicEvent : ChannelEvent :=
  { channel := "CPRO", user := "U2", text := "email funnel break", ts := "300.1",
    thread_ts := none }

theorem C6_witness :
    (handleChannelMessage "CPRO" exAwaitState exTopicEvent 1000 exOkParse).2.expectingFlagUsed =
      some true ∧
    (handleChannelMessage "CPRO" exAwaitState exTopicEvent 1000 exOkParse).2.classifierInvoked =
      true ∧
    (handleChannelMessage "CPRO" exAwaitState exTopicEvent 14460000
        exOkParse).1.pendingTopicRequest = none ∧
    (handleChannelMessage "CPRO" exAwaitState exTopicEvent 14460000
        exOkParse).2.expectingFlagUsed = some false := by
  have h1 := C6_request_window "CPRO" exAwaitState exTopicEvent 1000 exOkParse
    { askedBy := "U1", askedAt := 0, message := "whats the topic for tomorrow" }
    rfl (by decide) rfl (by decide) rfl
  have h2 := C6_request_window "CPRO" exAwaitState exTopicEvent 14460000 exOkParse
    { askedBy := "U1", askedAt := 0, message := "whats the topic for tomorrow" }
    rfl (by decide) rfl (by decide) rfl
  exact ⟨(h1.1 (by decide)).1, (h1.1 (by decide)).2 (by decide),
    (h2.2 (by decide)).1, (h2.2 (by decide)).2⟩

/-- C7: `checkDuplicate` normalizes the candidate (lowercase, trim) and
reports a duplicate exactly when some record inside the 24h window is equal
to, contains, or is contained in the candidate after the same normalization;
and it purges the records map down to exactly the entries inside the window,
so a topic recorded more than 24h earlier no longer suppresses a
resubmission. -/
theorem C7_duplicate_iff (topic : String) (pts : StrMap ProcessedTopic) (now : Nat) :
    ((checkDuplicate topic pts now).1 = true ↔
      ∃ e ∈ pts, now - e.2.timestamp ≤ DUPLICATE_WINDOW_MS ∧
        (strTrim (strToLower e.2.topic) = strTrim (strToLower topic) ∨
         strContains (strTrim (strToLower e.2.topic)) (strTrim (strToLower topic)) = true ∨
         strContains (strTrim (strToLower topic)) (strTrim (strToLower e.2.topic)) = true)) ∧
    (checkDuplicate topic pts now).2 =
      pts.filter (fun e => decide (now - e.2.timestamp ≤ DUPLICATE_WINDOW_MS)) := by
  have hpred : ∀ e : String × ProcessedTopic,
      (!(decide (DUPLICATE_WINDOW_MS < now - e.2.timestamp))) =
        decide (now - e.2.timestamp ≤ DUPLICATE_WINDOW_MS) := by
    intro e
    by_cases h : now - e.2.timestamp ≤ DUPLICATE_WINDOW_MS
    · simp [h, Nat.not_lt.mpr h]
    · simp [h, Nat.lt_of_not_le h]
  have hfilter : pts.filter (fun e => !(decide (DUPLICATE_WINDOW_MS < now - e.2.timestamp))) =
      pts.filter (fun e => decide (now - e.2.timestamp ≤ DUPLICATE_WINDOW_MS)) :=
    List.filter_congr (fun e _ => hpred e)
  constructor
  · unfold checkDuplicate
    rw [hfilter]
    simp only [List.any_eq_true, List.mem_filter, decide_eq_true_eq]
    constructor
    · rintro ⟨e, ⟨he, hwin⟩, hmatch⟩
      refine ⟨e, he, hwin, ?_⟩
      simp only [Bool.or_eq_true, beq_iff_eq] at hmatch
      tauto
    · rintro ⟨e, he, hwin, hmatch⟩
      refine ⟨e, ⟨he, hwin⟩, ?_⟩
      simp only [Bool.or_eq_true, beq_iff_eq]
      tauto
  · unfold checkDuplicate
    rw [hfilter]

/- ### Call history audit log (pending-store.ts, lines 593-672) -/

/-- A `call_history` row (CallHistoryEntry, lines 593-610), without the
serial primary key. -/
structure CallHistoryRow where
  meetingId : String
  callType : CallType
  topic : String
  presenter : String
  callDate : Nat
  status : String
  errorMessage : Option String
  youtubeUrl : Option String
  youtubeId : Option String
  circleUrl : Option String
  driveVideoUrl : Option String
  driveTranscriptUrl : Option String
  driveChatUrl : Option String
  createdAt : Nat
  processedAt : Option Nat
deriving DecidableEq, Repr

/-- The entry argument of `upsertCallHistory` (lines 615-629); optional
fields are the ones the caller may omit. -/
structure UpsertCallHistoryInput where
  meetingId : String
  callType : CallType
  topic : String
  presenter : Option String
  callDate : Nat
  status : Option String
  errorMessage : Option String
  youtubeUrl : Option String
  youtubeId : Option String
  circleUrl : Option String
  driveVideoUrl : Option String
  driveTranscriptUrl : Option String
  driveChatUrl : Option String
deriving DecidableEq, Repr

/-- SQL `COALESCE(new, old)`. -/
def coalesce (new old : Option String) : Option String :=
  match new with
  | some v => some v
  | none => old

/-- The `ON CONFLICT (meeting_id) DO UPDATE SET` clause of
`upsertCallHistory`, applied to the existing row. The bound parameters are
`$3 = entry.topic` (required, never null), `$4 = entry.presenter || 'Stefan'`
and `$6 = entry.status || 'pending'` (defaulted, never null),
`$7 = entry.errorMessage || null`, and the six link parameters
`entry.x || null`. `topic`, `presenter` and `status` therefore always take
the (defaulted) parameter; `error_message = $7` carries no COALESCE and is
always overwritten; only the link fields merge; `call_type`, `call_date` and
`created_at` are not in the SET list; `processed_at` is stamped when `$6`
is 'completed'. -/
def upsertRow (old : CallHistoryRow) (e : UpsertCallHistoryInput) (now : Nat) :
    CallHistoryRow :=
  let p6 := e.status.getD "pending"
  { old with
    topic := e.topic
    presenter := e.presenter.getD "Stefan"
    status := p6
    errorMessage := e.errorMessage
    youtubeUrl := coalesce e.youtubeUrl old.youtubeUrl
    youtubeId := coalesce e.youtubeId old.youtubeId
    circleUrl := coalesce e.circleUrl old.circleUrl
    driveVideoUrl := coalesce e.driveVideoUrl old.driveVideoUrl
    driveTranscriptUrl := coalesce e.driveTranscriptUrl old.driveTranscriptUrl
    driveChatUrl := coalesce e.driveChatUrl old.driveChatUrl
    processedAt := if p6 = "completed" then some now else old.processedAt }

/-- The INSERT arm of `upsertCallHistory` (no conflict): the row built from
the bound parameters; `created_at` defaults to now, `processed_at` to null. -/
def insertRow (e : UpsertCallHistoryInput) (now : Nat) : CallHistoryRow :=
  { meetingId := e.meetingId
    callType := e.callType
    topic := e.topic
    presenter := e.presenter.getD "Stefan"
    callDate := e.callDate
    status := e.status.getD "pending"
    errorMessage := e.errorMessage
    youtubeUrl := e.youtubeUrl
    youtubeId := e.youtubeId
    circleUrl := e.circleUrl
    driveVideoUrl := e.driveVideoUrl
    driveTranscriptUrl := e.driveTranscriptUrl
    driveChatUrl := e.driveChatUrl
    createdAt := now
    processedAt := none }

/-- `upsertCallHistory` over the `call_history` table (meeting_id UNIQUE):
update the conflicting row when one exists, insert otherwise. -/
def upsertCallHistory (table : List CallHistoryRow) (e : UpsertCallHistoryInput)
    (now : Nat) : List CallHistoryRow :=
  if table.any (fun row => row.meetingId == e.meetingId) then
    table.map (fun row => if row.meetingId == e.meetingId then upsertRow row e now else row)
  else
    table ++ [insertRow e now]

/-- An existing failed call-history row holding an error message. -/
def exHistoryRow : CallHistoryRow :=
  { meetingId := "m1"
    callType := CallType.weekly
    topic := "Email Funnel Breakdown"
    presenter := "Stefan"
    callDate := 100
    status := "failed"
    errorMessage := some "upload failed"
    youtubeUrl := none
    youtubeId := none
    circleUrl := none
    driveVideoUrl := none
    driveTranscriptUrl := none
    driveChatUrl := none
    createdAt := 100
    processedAt := none }

/-- A later pipeline-stage upsert for the same meeting that supplies a link
but neither a status nor an error message. -/
def exHistoryInput : UpsertCallHistoryInput :=
  { meetingId := "m1"
    callType := CallType.weekly
    topic := "Email Funnel Breakdown"
    presenter := none
    callDate := 100
    status := none
    errorMessage := none
    youtubeUrl := some "https://youtu.be/abc"
    youtubeId := some "abc"
    circleUrl := none
    driveVideoUrl := none
    driveTranscriptUrl := none
    driveChatUrl := none }

/-- C9 counterexample: upserting an existing meeting key while supplying no
value (null) for `errorMessage` and `status` does NOT retain the previously
stored values, contradicting the claim: the stored error message
"upload failed" is cleared to null (`error_message = $7` has no COALESCE) and
the stored status "failed" is overwritten with the default "pending"
(`$6 = entry.status || 'pending'` is never null, so its COALESCE always takes
the new value). -/
theorem C9_counterexample :
    exHistoryRow.errorMessage = some "upload failed" ∧
    exHistoryRow.status = "failed" ∧
    (upsertCallHistory [exHistoryRow] exHistoryInput 200).map CallHistoryRow.errorMessage =
      [none] ∧
    (upsertCallHistory [exHistoryRow] exHistoryInput 200).map CallHistoryRow.status =
      ["pending"] ∧
    ¬ ((upsertCallHistory [exHistoryRow] exHistoryInput 200).map CallHistoryRow.errorMessage =
        [some "upload failed"]) := by
  refine ⟨rfl, rfl, by decide, by decide, by decide⟩

/-- C9 (amended): for an upsert whose meeting key already exists, only the
six link fields follow supply-merge semantics (overwritten when the caller
supplies a non-null value, retained otherwise); `topic` is a required input
and always overwrites; `presenter` and `status` are overwritten on every
upsert with the supplied value or their defaults ("Stefan" / "pending");
`error_message` is overwritten on every upsert with the supplied value or
null; an upsert carrying status "failed" stores its error message alongside
that status; and the row identity (`meeting_id`, `call_type`, `call_date`,
`created_at`) is retained. -/
theorem C9_amended_merge (table : List CallHistoryRow) (e : UpsertCallHistoryInput)
    (old : CallHistoryRow) (now : Nat)
    (hmem : old ∈ table) (hkey : old.meetingId = e.meetingId) :
    upsertCallHistory table e now =
      table.map (fun row =>
        if row.meetingId == e.meetingId then upsertRow row e now else row) ∧
    (upsertRow old e now).topic = e.topic ∧
    (upsertRow old e now).presenter = e.presenter.getD "Stefan" ∧
    (upsertRow old e now).status = e.status.getD "pending" ∧
    (upsertRow old e now).errorMessage = e.errorMessage ∧
    (∀ u, e.youtubeUrl = some u → (upsertRow old e now).youtubeUrl = some u) ∧
    (e.youtubeUrl = none → (upsertRow old e now).youtubeUrl = old.youtubeUrl) ∧
    (∀ u, e.youtubeId = some u → (upsertRow old e now).youtubeId = some u) ∧
    (e.youtubeId = none → (upsertRow old e now).youtubeId = old.youtubeId) ∧
    (∀ u, e.circleUrl = some u → (upsertRow old e now).circleUrl = some u) ∧
    (e.circleUrl = none → (upsertRow old e now).circleUrl = old.circleUrl) ∧
    (∀ u, e.driveVideoUrl = some u → (upsertRow old e now).driveVideoUrl = some u) ∧
    (e.driveVideoUrl = none → (upsertRow old e now).driveVideoUrl = old.driveVideoUrl) ∧
    (∀ u, e.driveTranscriptUrl = some u →
      (upsertRow old e now).driveTranscriptUrl = some u) ∧
    (e.driveTranscriptUrl = none →
      (upsertRow old e now).driveTranscriptUrl = old.driveTranscriptUrl) ∧
    (∀ u, e.driveChatUrl = some u → (upsertRow old e now).driveChatUrl = some u) ∧
    (e.driveChatUrl = none → (upsertRow old e now).driveChatUrl = old.driveChatUrl) ∧
    (e.status = some "failed" → ∀ m, e.errorMessage = some m →
      (upsertRow old e now).errorMessage = some m ∧ (upsertRow old e now).status = "failed") ∧
    (upsertRow old e now).meetingId = old.meetingId ∧
    (upsertRow old e now).callType = old.callType ∧
    (upsertRow old e now).callDate = old.callDate ∧
    (upsertRow old e now).createdAt = old.createdAt := by
  have hany : (table.any (fun row => row.meetingId == e.meetingId)) = true := by
    rw [List.any_eq_true]
    exact ⟨old, hmem, by simp [hkey]⟩
  refine ⟨?_, rfl, rfl, rfl, rfl, ?_, ?_, ?_, ?_, ?_, ?_, ?_, ?_, ?_, ?_, ?_, ?_, ?_,
    rfl, rfl, rfl, rfl⟩
  · unfold upsertCallHistory
    rw [if_pos hany]
  · intro u hu
    simp [upsertRow, coalesce, hu]
  · intro h
    simp [upsertRow, coalesce, h]
  · intro u hu
    simp [upsertRow, coalesce, hu]
  · intro h
    simp [upsertRow, coalesce, h]
  · intro u hu
    simp [upsertRow, coalesce, hu]
  · intro h
    simp [upsertRow, coalesce, h]
  · intro u hu
    simp [upsertRow, coalesce, hu]
  · intro h
    simp [upsertRow, coalesce, h]
  · intro u hu
    simp [upsertRow, coalesce, hu]
  · intro h
    simp [upsertRow, coalesce, h]
  · intro u hu
    simp [upsertRow, coalesce, hu]
  · intro h
    simp [upsertRow, coalesce, h]
  · intro hs m hm
    exact ⟨by simp [upsertRow, hm], by simp [upsertRow, hs]⟩

theorem C9_amended_witness :
    upsertCallHistory [exHistoryRow] exHistoryInput 200 =
      [exHistoryRow].map (fun row =>
        if row.meetingId == exHistoryInput.meetingId
        then upsertRow row exHistoryInput 200 else row) ∧
    (upsertRow exHistoryRow exHistoryInput 200).youtubeUrl = some "https://youtu.be/abc" ∧
    (upsertRow exHistoryRow exHistoryInput 200).circleUrl = exHistoryRow.circleUrl := by
  have h := C9_amended_merge [exHistoryRow] exHistoryInput exHistoryRow 200
    (by simp) rfl
  exact ⟨h.1, h.2.2.2.2.2.1 "https://youtu.be/abc" rfl, h.2.2.2.2.2.2.2.2.2.2.1 rfl⟩
